import Mathlib

/-!
Shallow embedding of the NIX launcher's unified input layer
(`src/launcher/input_handler.py`) and verification of the frozen claims
about it.

Conventions used throughout:
* Python floats are modelled as `ℚ` (all arithmetic in the module is
  exact linear arithmetic on small values, far from any IEEE edge case).
* A method that raises `ValueError` is modelled as returning `none`.
* `__debug__` (Python's assert/optimization flag, `True` in a default
  interpreter run) is passed explicitly as a `dbg : Bool` parameter to the
  functions whose control flow mentions it.
* The class defines `_send_event` and `_process_keyboard_event` twice;
  Python keeps the later definition, so the embeddings below follow the
  second (effective) definitions, at lines 1164-1212 and 1131-1162.
* Timestamps (`InputEvent.timestamp`, `_key_event_timestamps`) are not
  modelled: the effective code paths for the claims never read them.
-/

/-- The `Button` enumeration (`input_handler.py` lines 150-218): the closed
set of logical controls.  Note that the source enum has *no* members
`L1`, `R1`, `L2`, `R2` — a fact that matters for vendor detection. -/
inductive Button where
  | A | B | X | Y
  | LB | RB | LT | RT
  | START | SELECT | HOME
  | DPAD_UP | DPAD_DOWN | DPAD_LEFT | DPAD_RIGHT
  | L3 | R3
  | LEFT_X | LEFT_Y | RIGHT_X | RIGHT_Y | LEFT_TRIGGER | RIGHT_TRIGGER
deriving DecidableEq, Repr

/-- The `InputEvent` dataclass (lines 220-280), minus the wall-clock
`timestamp` field.  `state` is `0`/`1` for digital events and a
normalized rational for analog events. -/
structure InputEvent where
  button : Button
  state : ℚ
  isAnalog : Bool
deriving DecidableEq, Repr

/-- `InputHandler._normalize_axis_value(value, min_val, max_val)`
(lines 690-743).  Mirrors the source exactly: `ValueError` on
`min_val >= max_val` becomes `none`; then the already-normalized
special case (`-1.0 <= value <= 1.0 and min_val == -1.0 and
max_val == 1.0`) returns the value unchanged; otherwise the raw value is
clamped to `[min_val, max_val]` and mapped linearly onto `[-1, 1]`
(the dead `min_val == max_val` guard of the source is kept). -/
def normalizeAxisValue (value minVal maxVal : ℚ) : Option ℚ :=
  if minVal ≥ maxVal then none
  else if -1 ≤ value ∧ value ≤ 1 ∧ minVal = -1 ∧ maxVal = 1 then some value
  else
    let clamped := max minVal (min value maxVal)
    if minVal = maxVal then some 0
    else some ((clamped - minVal) / (maxVal - minVal) * 2 - 1)

/-- C2 counterexample: the claim's first and third conjuncts are false on
the code.  `_normalize_axis_value(0, -32768, 32767)` is `1/65535`
(raw `0` is the *center* of the signed range), not `-1.0`, and
`_normalize_axis_value(16383, -32768, 32767)` is `32767/65535 ≈ 0.5`,
nowhere within `0.001` of `0.0`. -/
theorem normalize_claimed_values_false :
    normalizeAxisValue 0 (-32768) 32767 ≠ some (-1) ∧
    normalizeAxisValue 16383 (-32768) 32767 = some (32767 / 65535) ∧
    (1 / 1000 : ℚ) < |(32767 / 65535 : ℚ)| := by
  refine ⟨?_, ?_, by rw [abs_of_pos] <;> norm_num⟩ <;>
    · simp only [normalizeAxisValue]
      norm_num

/-- C2 (amended): with the endpoint samples actually in the signed 16-bit
range, `_normalize_axis_value(-32768, -32768, 32767) = -1.0`,
`_normalize_axis_value(32767, -32768, 32767) = 1.0`, and the center
sample `0` normalizes to `1/65535`, within `0.001` of `0.0`. -/
theorem normalize_endpoint_values :
    normalizeAxisValue (-32768) (-32768) 32767 = some (-1) ∧
    normalizeAxisValue 32767 (-32768) 32767 = some 1 ∧
    normalizeAxisValue 0 (-32768) 32767 = some (1 / 65535) ∧
    |(1 / 65535 : ℚ)| < 1 / 1000 := by
  refine ⟨?_, ?_, ?_, by rw [abs_of_pos] <;> norm_num⟩ <;>
    · simp only [normalizeAxisValue]
      norm_num

/-- C6: for every raw value (in range or not) and every pair
`min < max`, `_normalize_axis_value` stays inside `[-1, 1]`: the raw
sample is clamped to `[min, max]` before the linear map. -/
theorem normalize_output_bounded (value minVal maxVal : ℚ)
    (hlt : minVal < maxVal) (r : ℚ)
    (hr : normalizeAxisValue value minVal maxVal = some r) :
    -1 ≤ r ∧ r ≤ 1 := by
  unfold normalizeAxisValue at hr
  rw [if_neg (not_le.2 hlt)] at hr
  by_cases hc : -1 ≤ value ∧ value ≤ 1 ∧ minVal = -1 ∧ maxVal = 1
  · rw [if_pos hc] at hr
    obtain ⟨h1, h2, _, _⟩ := hc
    injection hr with h
    subst h
    exact ⟨h1, h2⟩
  · rw [if_neg hc, if_neg (ne_of_lt hlt)] at hr
    injection hr with h
    subst h
    have hc1 : minVal ≤ max minVal (min value maxVal) := le_max_left _ _
    have hc2 : max minVal (min value maxVal) ≤ maxVal :=
      max_le hlt.le (min_le_right _ _)
    have hd : (0 : ℚ) < maxVal - minVal := sub_pos.2 hlt
    have hn0 : 0 ≤ (max minVal (min value maxVal) - minVal) / (maxVal - minVal) :=
      div_nonneg (sub_nonneg.2 hc1) hd.le
    have hn1 : (max minVal (min value maxVal) - minVal) / (maxVal - minVal) ≤ 1 :=
      (div_le_one hd).2 (by linarith)
    constructor <;> dsimp only <;> nlinarith [hn0, hn1]

/-- C6 witness: a concrete in-range evaluation of the bound theorem. -/
theorem normalize_output_bounded_witness :
    ((-1 / 2 : ℚ) < 1 / 2 ∧ normalizeAxisValue 0 (-1 / 2) (1 / 2) = some 0) ∧
    (-1 ≤ (0 : ℚ) ∧ (0 : ℚ) ≤ 1) := by
  have h0 : normalizeAxisValue 0 (-1 / 2) (1 / 2) = some 0 := by
    simp only [normalizeAxisValue]
    norm_num
  exact ⟨⟨by norm_num, h0⟩, normalize_output_bounded 0 (-1 / 2) (1 / 2) (by norm_num) 0 h0⟩

/-- Lower-cases a device name, as `gamepad.name.lower()` does at line 584. -/
def lowerChars (s : String) : List Char := s.data.map Char.toLower

/-- Character-list prefix test (used to build the substring test below). -/
def isPrefixChars : List Char → List Char → Bool
  | [], _ => true
  | _ :: _, [] => false
  | a :: as, b :: bs => a == b && isPrefixChars as bs

/-- `pat in hay` on strings, Python's substring containment. -/
def hasSub (pat : List Char) : List Char → Bool
  | [] => pat.isEmpty
  | c :: rest => isPrefixChars pat (c :: rest) || hasSub pat rest

/-- `any(kw in gamepad_name for kw in ids)`, the per-vendor keyword test. -/
def matchAny (ids : List String) (lname : List Char) : Bool :=
  ids.any fun kw => hasSub kw.data lname

/-- `sony_ids` (line 588). -/
def sonyIds : List String :=
  ["sony", "dualshock", "dualsense", "playstation", "ps3", "ps4", "ps5"]

/-- `nintendo_ids` (line 621). -/
def nintendoIds : List String :=
  ["nintendo", "switch", "joy-con", "joycon", "pro controller"]

/-- `xbox_ids` (line 653). -/
def xboxIds : List String :=
  ["xbox", "x-box", "xinput", "x360", "xone", "series x", "series s"]

/-- The attribute list of the generic-XInput refinement (line 668). -/
def genericXinputIds : List String := ["xinput", "x-box", "xbox"]

/-- Which keyword block of `_detect_gamepad_type` a lowered device name
matches first: Sony is tested before Nintendo before Xbox (lines 588-661),
and each block breaks out of the loop on a match. -/
inductive VendorBranch where
  | sony | nintendo | xbox | noneMatched
deriving DecidableEq, Repr

/-- One iteration of the detection loop body (lines 583-661). -/
def matchVendor (lname : List Char) : VendorBranch :=
  if matchAny sonyIds lname then .sony
  else if matchAny nintendoIds lname then .nintendo
  else if matchAny xboxIds lname then .xbox
  else .noneMatched

/-- The `for gamepad in gamepads` loop of `_detect_gamepad_type`.
Returns `some (gamepad_type, raised)` when a vendor block matches,
`none` when the loop falls through to its `else` clause.

The Sony and Nintendo blocks first assign `_gamepad_type`, then build
their override dict; that dict literal names `Button.L1`, `Button.R1`,
`Button.L2`, `Button.R2`, none of which exist on the `Button` enum
(lines 186-218), so Python raises `AttributeError` while evaluating it.
The surrounding `except Exception` (line 680) then sets
`_gamepad_type = "error"` and re-raises as `RuntimeError` — hence those
two branches end in `("error", true)`.  The Xbox block only logs, so it
completes with `("xbox", false)`. -/
def detectLoop : List String → Option (String × Bool)
  | [] => none
  | n :: rest =>
    match matchVendor (lowerChars n) with
    | .sony => some ("error", true)
    | .nintendo => some ("error", true)
    | .xbox => some ("xbox", false)
    | .noneMatched => detectLoop rest

/-- `InputHandler._detect_gamepad_type` (lines 538-688), as a function of
the connected gamepad names, returning the final `_gamepad_type` string
together with whether the method raised.  An empty device list yields
`"none"` (line 575); when no vendor block matches any device, the loop's
`else` clause classifies from the *last* lowered name (the loop variable
left over), refining `"generic"` to `"xinput"` (lines 663-674). -/
def detectGamepadType (names : List String) : String × Bool :=
  match names with
  | [] => ("none", false)
  | first :: rest =>
    match detectLoop (first :: rest) with
    | some r => r
    | none =>
      if matchAny genericXinputIds (lowerChars ((first :: rest).getLastD first))
      then ("xinput", false) else ("generic", false)

/-- C3: a pad named `"Sony Wireless Controller (Xbox Mode)"` does hit the
Sony block first (Sony keywords are checked before Nintendo and Xbox and
the first match wins), but `_detect_gamepad_type` does *not* complete
with `"sony"`: building `sony_mapping` dereferences the nonexistent
`Button.L1`, the `AttributeError` is caught, `_gamepad_type` ends as
`"error"` and the method raises `RuntimeError`. -/
theorem detect_sony_name_errors :
    matchVendor (lowerChars "Sony Wireless Controller (Xbox Mode)") = VendorBranch.sony ∧
    detectGamepadType ["Sony Wireless Controller (Xbox Mode)"] = ("error", true) ∧
    detectGamepadType ["Sony Wireless Controller (Xbox Mode)"] ≠ ("sony", false) := by
  refine ⟨by decide, by decide, by decide⟩

/-- The dispatcher-owned state read and written by `_send_event`:
`_last_events` (line 494), the never-again-touched `_callback_error_count`
(line 497), and whether `on_input_event` is still a callable (line 491;
the effective `_send_event` never clears it). -/
structure DispatchState where
  lastEvents : Button → Option ℚ
  callbackErrorCount : ℕ
  callbackRegistered : Bool

/-- What one call of the effective `_send_event` did: the state it left
behind, whether the consumer callback was invoked, whether an exception
escaped the method, and the event handed to the callback (if any). -/
structure SendResult where
  state : DispatchState
  invoked : Bool
  raised : Bool
  dispatched : Option InputEvent

/-- The early-return filter of the effective `_send_event`
(lines 1189-1196): an analog event with a cached previous value is
dropped when it moved less than the 5% significance threshold; a digital
event is dropped when its value equals the cached one (`None == v` is
`False` in Python, so an uncached digital event always passes). -/
def isFiltered (last : Button → Option ℚ) (e : InputEvent) : Bool :=
  if e.isAnalog then
    match last e.button with
    | some l => decide (|e.state - l| < 1 / 20)
    | none => false
  else decide (last e.button = some e.state)

/-- The effective `InputHandler._send_event` (the second definition of
that name, lines 1164-1212, which shadows the first at 1037-1129).
Control flow mirrored from the source: bail out if no callable callback
is registered (line 1180); return early when the debounce/significance
filter fires; otherwise update `_last_events`, invoke the callback
(its own exception is swallowed by the nested `except` at 1204-1206,
with no error counter and no disabling in this definition), and then
fall through to the mis-indented trailing `if __debug__: raise`
(lines 1211-1212), which sits *outside* the `try`/`except` and therefore
fires on every forwarding call when `dbg` is true. -/
def sendEvent (dbg : Bool) (s : DispatchState) (e : InputEvent) : SendResult :=
  if s.callbackRegistered = false then ⟨s, false, false, none⟩
  else if isFiltered s.lastEvents e then ⟨s, false, false, none⟩
  else
    ⟨{ s with lastEvents := fun b => if b = e.button then some e.state else s.lastEvents b },
      true, dbg, some e⟩

/-- Cumulative effect of offering a list of events to `_send_event` in
sequence: final state, number of callback invocations, and number of
calls from which an exception escaped. -/
structure OfferTrace where
  dispatch : DispatchState
  invocations : ℕ
  raisedCount : ℕ

/-- Folds `sendEvent` over a list of candidate events. -/
def offerList (dbg : Bool) (s : DispatchState) : List InputEvent → OfferTrace
  | [] => ⟨s, 0, 0⟩
  | e :: rest =>
    let r := sendEvent dbg s e
    let t := offerList dbg r.state rest
    ⟨t.dispatch, (if r.invoked then 1 else 0) + t.invocations,
      (if r.raised then 1 else 0) + t.raisedCount⟩

/-- A dispatcher state fresh out of `__init__`: empty `_last_events`,
zero error count, callback registered (the constructor rejects
non-callables at line 485). -/
def freshDispatch : DispatchState :=
  ⟨fun _ => none, 0, true⟩

/-- `InputHandler._process_dpad_event` (lines 859-895).  On a neutral
sample it sends a release for both paired buttons, on a signed sample a
press for the button matching the sign.  Its `except` clause (892-895)
only logs — it does not re-raise — so an exception that `_send_event`
raises after forwarding the *first* release aborts the method before the
second release is sent.  Returns the new dispatcher state and the list
of events actually handed to the callback. -/
def processDpadEvent (dbg : Bool) (s : DispatchState)
    (pair : Button × Button) (state : ℤ) :
    DispatchState × List InputEvent :=
  if state = 0 then
    let r1 := sendEvent dbg s ⟨pair.1, 0, false⟩
    if r1.raised then (r1.state, r1.dispatched.toList)
    else
      let r2 := sendEvent dbg r1.state ⟨pair.2, 0, false⟩
      (r2.state, r1.dispatched.toList ++ r2.dispatched.toList)
  else
    let b := if state < 0 then pair.1 else pair.2
    let r := sendEvent dbg s ⟨b, 1, false⟩
    (r.state, r.dispatched.toList)

/-- Upper-cases a key code, as `event.code.upper()` does at line 1149. -/
def upperStr (s : String) : String := String.mk (s.data.map Char.toUpper)

/-- `DEFAULT_KEYBOARD_MAPPING` (lines 353-383). -/
def defaultKeyboardMapping : List (String × Button) :=
  [("KEY_UP", .DPAD_UP), ("KEY_DOWN", .DPAD_DOWN),
   ("KEY_LEFT", .DPAD_LEFT), ("KEY_RIGHT", .DPAD_RIGHT),
   ("KEY_ENTER", .A), ("KEY_SPACE", .A),
   ("KEY_ESC", .B), ("KEY_BACKSPACE", .B),
   ("KEY_TAB", .SELECT), ("KEY_RETURN", .START),
   ("KEY_W", .DPAD_UP), ("KEY_S", .DPAD_DOWN),
   ("KEY_A", .DPAD_LEFT), ("KEY_D", .DPAD_RIGHT),
   ("KEY_J", .A), ("KEY_K", .B), ("KEY_I", .Y), ("KEY_U", .X),
   ("KEY_Q", .LB), ("KEY_E", .RB), ("KEY_1", .START), ("KEY_2", .SELECT)]

/-- `dict.get` on an association-list keyboard mapping. -/
def kbLookup (m : List (String × Button)) (k : String) : Option Button :=
  (m.find? fun p => p.1 == k).map Prod.snd

/-- The effective `InputHandler._process_keyboard_event` (the second
definition, lines 1131-1162, which shadows the first at 969-1035).
Anything that is not a key event, or whose state is `0` (a key release),
returns immediately (line 1146); otherwise the upper-cased code is looked
up in `_keyboard_mapping`, and a mapped key sends
`InputEvent(button, 1)` — always a press with value 1, never a release.
The method's own `except` re-raises under `__debug__` (lines 1161-1162),
which leaves the `raised` flag of the inner `_send_event` call as is. -/
def processKeyboardEvent (dbg : Bool) (s : DispatchState)
    (kbMap : List (String × Button)) (evType : String) (code : String)
    (state : ℤ) : SendResult :=
  if evType ≠ "Key" ∨ state = 0 then ⟨s, false, false, none⟩
  else
    match kbLookup kbMap (upperStr code) with
    | none => ⟨s, false, false, none⟩
    | some b => sendEvent dbg s ⟨b, 1, false⟩

/-- The `InputHandler` instance state touched by the lifecycle methods:
`_running`, `_thread` (abstracted to whether one is held), the dispatcher
state, `_deadzone`, and `_gamepad_type`. -/
structure InputHandler where
  running : Bool
  hasThread : Bool
  dispatch : DispatchState
  deadzone : ℚ
  gamepadType : String

/-- `InputHandler.__init__` (lines 413-520) as a function of its
configuration arguments and of the hardware environment
(`none` = the `inputs` library is unavailable, `some names` = the
connected gamepad names).  Faithful to the source: line 496 assigns
`self._deadzone = 0.2` **unconditionally**, so the `deadzone` argument
(like `poll_interval`) is bound but never read; `_gamepad_type` starts
as `"unknown"` (line 498) and is then set by `_detect_gamepad_type`
when gamepad support is available (the `RuntimeError` the detection may
raise is swallowed by the `except` at line 514, keeping the attribute
value the method last assigned). -/
def InputHandler.construct (dz pollInterval : ℚ)
    (gamepadNames : Option (List String)) : InputHandler :=
  { running := false
    hasThread := false
    dispatch := freshDispatch
    deadzone := 2 / 10
    gamepadType :=
      match gamepadNames with
      | none => "unknown"
      | some names => (detectGamepadType names).1 }

/-- `InputHandler.set_deadzone` (lines 1368-1375): clamps into
`[0.0, 1.0]` instead of rejecting. -/
def InputHandler.setDeadzone (s : InputHandler) (d : ℚ) : InputHandler :=
  { s with deadzone := max 0 (min 1 d) }

/-- `InputHandler.start` (lines 1279-1319): a warned no-op when already
running; otherwise sets `_running`, spawns the worker thread, and — when
the thread is not alive afterwards (`threadAlive = false`) — rolls back
`_running`, drops the thread, and re-raises under `__debug__`.
Returns the new state and whether the call raised. -/
def InputHandler.start (s : InputHandler) (threadAlive dbg : Bool) :
    InputHandler × Bool :=
  if s.running then (s, false)
  else if threadAlive then ({ s with running := true, hasThread := true }, false)
  else ({ s with running := false, hasThread := false }, dbg)

/-- `InputHandler.stop` (lines 1325-1357): a warned no-op when already
stopped; otherwise clears `_running` and joins the thread (the `_thread`
attribute itself is not cleared by `stop`). -/
def InputHandler.stop (s : InputHandler) : InputHandler :=
  if s.running = false then s
  else { s with running := false }

/-- C7: lifecycle idempotence of the no-op branches — `stop()` on an
already-stopped handler returns with the whole state (running flag,
thread slot, dispatcher cache, deadzone) unchanged, and `start()` on an
already-running handler likewise changes nothing and raises nothing. -/
theorem lifecycle_noop_branches (s : InputHandler) (threadAlive dbg : Bool) :
    (s.running = false → s.stop = s) ∧
    (s.running = true → s.start threadAlive dbg = (s, false)) := by
  constructor <;> intro h <;>
    simp [InputHandler.stop, InputHandler.start, h]

/-- C7 witness: the no-op branches evaluated on concrete states. -/
theorem lifecycle_noop_branches_witness :
    ((InputHandler.construct (2 / 10) (1 / 200) none).stop
        = InputHandler.construct (2 / 10) (1 / 200) none) ∧
    (({ InputHandler.construct (2 / 10) (1 / 200) none with running := true }).start true true
        = ({ InputHandler.construct (2 / 10) (1 / 200) none with running := true }, false)) :=
  ⟨(lifecycle_noop_branches (InputHandler.construct (2 / 10) (1 / 200) none) true true).1 rfl,
   (lifecycle_noop_branches
      { InputHandler.construct (2 / 10) (1 / 200) none with running := true } true true).2 rfl⟩

/-- C8: the `deadzone` constructor argument is *ignored* — constructing
with `deadzone = 0.5` still leaves `_deadzone = 0.2` (line 496 hardcodes
it), while `set_deadzone` does clamp out-of-range inputs into
`[0.0, 1.0]` as documented. -/
theorem construct_ignores_deadzone_argument :
    (InputHandler.construct (1 / 2) (1 / 200) none).deadzone = 2 / 10 ∧
    ((2 : ℚ) / 10 ≠ 1 / 2) ∧
    ((InputHandler.construct (1 / 2) (1 / 200) none).setDeadzone (3 / 2)).deadzone = 1 ∧
    ((InputHandler.construct (1 / 2) (1 / 200) none).setDeadzone (-1 / 2)).deadzone = 0 := by
  refine ⟨rfl, by norm_num, ?_, ?_⟩ <;>
    · simp [InputHandler.setDeadzone, InputHandler.construct]
      norm_num

/-- C9: in the effective `_send_event`, with a callback registered,
every call that forwards an event (invokes the callback) also updates
the cached value and then raises out of the method — the mis-indented
trailing `if __debug__: raise` — while a call from which no exception
escapes is exactly one the debounce/significance filter dropped, and it
leaves the state untouched. -/
theorem send_event_forward_raises (s : DispatchState) (e : InputEvent)
    (hreg : s.callbackRegistered = true) :
    ((sendEvent true s e).invoked = true →
        (sendEvent true s e).raised = true ∧
        (sendEvent true s e).state.lastEvents e.button = some e.state) ∧
    ((sendEvent true s e).raised = false →
        isFiltered s.lastEvents e = true ∧
        (sendEvent true s e).invoked = false ∧
        (sendEvent true s e).state = s) := by
  unfold sendEvent
  rw [hreg]
  by_cases hf : isFiltered s.lastEvents e = true
  · simp [hf]
  · simp [hf]

/-- C9 witness: a concrete uncached digital press forwards, and raises. -/
theorem send_event_forward_raises_witness :
    freshDispatch.callbackRegistered = true ∧
    (sendEvent true freshDispatch ⟨Button.A, 1, false⟩).raised = true ∧
    (sendEvent true freshDispatch ⟨Button.A, 1, false⟩).state.lastEvents Button.A = some 1 :=
  ⟨rfl, by
    have h := (send_event_forward_raises freshDispatch ⟨Button.A, 1, false⟩ rfl).1 (by decide)
    exact ⟨h.1, h.2⟩⟩

/-- C5: digital debounce in the effective `_send_event`.  From any
dispatcher state with a registered callback and no cached value for
`Button.A`, offering `(A, 1)` then `(A, 1)` invokes the consumer
callback exactly once, and offering `(A, 1)` then `(A, 0)` invokes it
exactly twice. -/
theorem digital_debounce (dbg : Bool) (s : DispatchState)
    (hreg : s.callbackRegistered = true)
    (h : s.lastEvents Button.A = none) :
    (offerList dbg s [⟨Button.A, 1, false⟩, ⟨Button.A, 1, false⟩]).invocations = 1 ∧
    (offerList dbg s [⟨Button.A, 1, false⟩, ⟨Button.A, 0, false⟩]).invocations = 2 := by
  constructor <;>
    simp [offerList, sendEvent, isFiltered, h, hreg]

/-- C5 witness: the debounce law evaluated on the fresh dispatcher. -/
theorem digital_debounce_witness :
    (freshDispatch.callbackRegistered = true ∧
      freshDispatch.lastEvents Button.A = none) ∧
    (offerList true freshDispatch [⟨Button.A, 1, false⟩, ⟨Button.A, 1, false⟩]).invocations = 1 ∧
    (offerList true freshDispatch [⟨Button.A, 1, false⟩, ⟨Button.A, 0, false⟩]).invocations = 2 :=
  ⟨⟨rfl, rfl⟩, digital_debounce true freshDispatch rfl rfl⟩

/-- Twelve alternating digital samples on `Button.A`: every one of them
differs from the cached value, so every one is forwarded. -/
def altEvents : List InputEvent :=
  [⟨.A, 1, false⟩, ⟨.A, 0, false⟩, ⟨.A, 1, false⟩, ⟨.A, 0, false⟩,
   ⟨.A, 1, false⟩, ⟨.A, 0, false⟩, ⟨.A, 1, false⟩, ⟨.A, 0, false⟩,
   ⟨.A, 1, false⟩, ⟨.A, 0, false⟩, ⟨.A, 1, false⟩, ⟨.A, 0, false⟩]

/-- C1: the effective `_send_event` has no failure isolation.  Offering
twelve forwardable events (with a callback that raises every time — its
error is swallowed with *no* counter increment, since the error-counting
code lives only in the shadowed first definition) invokes the callback
all twelve times — beyond the claimed 10-failure cutoff, showing dispatch
is never disabled — leaves `_callback_error_count` at `0`, keeps the
callback registered, and lets an exception escape `_send_event` on every
one of the twelve forwarding calls. -/
theorem callback_failures_never_disable :
    (offerList true freshDispatch altEvents).invocations = 12 ∧
    (offerList true freshDispatch altEvents).raisedCount = 12 ∧
    (offerList true freshDispatch altEvents).dispatch.callbackErrorCount = 0 ∧
    (offerList true freshDispatch altEvents).dispatch.callbackRegistered = true := by
  refine ⟨by decide, by decide, by decide, by decide⟩

/-- C4: d-pad processing under the default interpreter (`__debug__`
true).  From a fresh dispatcher, an `ABS_HAT0Y` sample of `-1` dispatches
exactly `(DPAD_UP, 1)` and no `DPAD_DOWN` event — that half of the claim
holds — but the subsequent `0` sample dispatches a release for
`DPAD_UP` *only*: the exception `_send_event` raises after forwarding
that first release aborts `_process_dpad_event` before the `DPAD_DOWN`
release is sent. -/
theorem dpad_neutral_release_incomplete :
    (processDpadEvent true freshDispatch (Button.DPAD_UP, Button.DPAD_DOWN) (-1)).2
      = [⟨Button.DPAD_UP, 1, false⟩] ∧
    (processDpadEvent true
        (processDpadEvent true freshDispatch (Button.DPAD_UP, Button.DPAD_DOWN) (-1)).1
        (Button.DPAD_UP, Button.DPAD_DOWN) 0).2
      = [⟨Button.DPAD_UP, 0, false⟩] := by
  refine ⟨by decide, by decide⟩

/-- C10: a keyboard sample with state `0` (a key release) emits nothing
and leaves the dispatcher state unchanged, and any event the keyboard
path does dispatch is a digital press with value `1` — keyboard-mapped
controls never produce release events. -/
theorem keyboard_release_ignored (dbg : Bool) (s : DispatchState)
    (kbMap : List (String × Button)) (evType code : String) :
    (processKeyboardEvent dbg s kbMap evType code 0 = ⟨s, false, false, none⟩) ∧
    (∀ (st : ℤ) (e : InputEvent),
      (processKeyboardEvent dbg s kbMap evType code st).dispatched = some e →
        e.state = 1 ∧ e.isAnalog = false) := by
  constructor
  · unfold processKeyboardEvent
    rw [if_pos (Or.inr rfl)]
  · intro st e he
    unfold processKeyboardEvent at he
    by_cases hcond : evType ≠ "Key" ∨ st = 0
    · rw [if_pos hcond] at he
      simp at he
    · rw [if_neg hcond] at he
      rcases hb : kbLookup kbMap (upperStr code) with _ | b
      · rw [hb] at he
        simp at he
      · rw [hb] at he
        unfold sendEvent at he
        dsimp only at he
        by_cases hr : s.callbackRegistered = false
        · rw [if_pos hr] at he
          simp at he
        · rw [if_neg hr] at he
          by_cases hf : isFiltered s.lastEvents ⟨b, 1, false⟩ = true
          · rw [if_pos hf] at he
            simp at he
          · rw [if_neg hf] at he
            simp only at he
            injection he with h
            subst h
            exact ⟨rfl, rfl⟩

/-- C10 witness: a `KEY_UP` release on the default mapping, evaluated. -/
theorem keyboard_release_ignored_witness :
    (processKeyboardEvent true freshDispatch defaultKeyboardMapping "Key" "KEY_UP" 0
      = ⟨freshDispatch, false, false, none⟩) ∧
    ((processKeyboardEvent true freshDispatch defaultKeyboardMapping "Key" "KEY_UP" 3).dispatched
        = some ⟨Button.DPAD_UP, 1, false⟩ →
      (1 : ℚ) = 1 ∧ false = false) :=
  ⟨(keyboard_release_ignored true freshDispatch defaultKeyboardMapping "Key" "KEY_UP").1,
   fun h => by
    have := (keyboard_release_ignored true freshDispatch defaultKeyboardMapping
        "Key" "KEY_UP").2 3 ⟨Button.DPAD_UP, 1, false⟩ h
    exact ⟨this.1, this.2⟩⟩
